import Mathlib

/- Shallow embedding of `SpreadsheetFeedingService._update` from
   src/server/belga/io/feeding_services/spreadsheet.py.

   External collaborators (google-sheet transport, the events store, the
   timezone database, dateutil's parser, the guid generator and the local
   timezone) are modelled as parameters bundled in `Env`.  Instants are
   integers (seconds); `timedelta(days=1, seconds=-1)` is `+ 86399`.
   Python exceptions are modelled explicitly: `IndexError` on a row access
   and the `KeyError` raised for an unknown `_GUID` are *not* caught by the
   per-row `except` clauses (which only catch `UnknownTimeZoneError`,
   `TypeError`, `ValueError`, `KeyError` raised inside the `try:` block),
   so they abort the whole run. -/

namespace Spreadsheet

/-- One pending cell update, as gspread's `Cell(row, col, value)`; row and
column are 1-based, matching the remote spreadsheet's addressing. -/
structure Cell where
  row : Nat
  col : Nat
  value : String
deriving DecidableEq, Repr

/-- Zero-based column positions of the canonical fields, as resolved from the
title row into the `index` dict (lines 118-134 of the source). -/
structure ColumnIndex where
  startDate : Nat
  startTime : Nat
  endDate : Nat
  endTime : Nat
  allDay : Nat
  tzone : Nat
  slugline : Nat
  eventName : Nat
  descr : Nat
  occurStatus : Nat
  calendars : Nat
  locName : Nat
  locAddr : Nat
  locCity : Nat
  locState : Nat
  locCountry : Nat
  cHon : Nat
  cFirst : Nat
  cLast : Nat
  cOrg : Nat
  cPoc : Nat
  cEmail : Nat
  cPhone : Nat
  cUsage : Nat
  cPublic : Nat
  longDescr : Nat
  internalNote : Nat
  edNote : Nat
  extLinks : Nat
  status : Nat
  err : Nat
  guid : Nat
deriving DecidableEq, Repr

/-- The canonical layout: the 29 titles in their published order followed by
the three bookkeeping columns `_STATUS`, `_ERR_MESSAGE`, `_GUID`. -/
def stdIdx : ColumnIndex :=
  ⟨0, 1, 2, 3, 4, 5, 6, 7, 8, 9, 10, 11, 12, 13, 14, 15, 16, 17, 18, 19, 20,
   21, 22, 23, 24, 25, 26, 27, 28, 29, 30, 31⟩

/-- External collaborators of the row loop. `parseLoc tz text` stands for
`tz.localize(dateutil.parser.parse(text))` (an error carries the exception
message, as `e.args[0]`); `tzdb` is `pytz.timezone` success; `localTz` is
`str(tzlocal.get_localzone())`; `findByGuid` is the events-store lookup
`find_one(guid=...)`; `genGuid row` is the fresh `generate_guid` value drawn
while processing that row. -/
structure Env where
  findByGuid : String → Bool
  genGuid : Nat → String
  localTz : String
  tzdb : String → Bool
  parseLoc : String → String → Except String Int

/-- A failure while transforming one row.  `caught` failures correspond to
`UnknownTimeZoneError` / `TypeError` / `ValueError` / `KeyError` raised inside
the row's `try:` block and are handled at the row boundary; `abort` failures
(Python `IndexError` from indexing past the end of the row list) are caught
by no handler and propagate out of the run. -/
inductive RowFail where
  | abort (msg : String)
  | caught (msg : String)
deriving DecidableEq, Repr

/-- Python's `str.upper()` on the ASCII range, computed on the character
list so it reduces definitionally. -/
def upperStr (s : String) : String := ⟨s.data.map Char.toUpper⟩

/-- Python's `str.lower()` on the ASCII range. -/
def lowerStr (s : String) : String := ⟨s.data.map Char.toLower⟩

/-- Python's `str.strip()`: drop whitespace from both ends. -/
def trimStr (s : String) : String :=
  ⟨((s.data.dropWhile Char.isWhitespace).reverse.dropWhile Char.isWhitespace).reverse⟩

/-- `values[i]` on a Python list: the value when in range, `IndexError`
otherwise. -/
def getV (vs : List String) (i : Nat) : Except RowFail String :=
  match vs[i]? with
  | some s => Except.ok s
  | none => Except.error (RowFail.abort "list index out of range")

/-- `occur_status_qcode_mapping` (lines 93-100). -/
def occurStatusQcode (s : String) : Option String :=
  if s = "Unplanned event" then some "eocstat:eos0"
  else if s = "Planned, occurrence planned only" then some "eocstat:eos1"
  else if s = "Planned, occurrence highly uncertain" then some "eocstat:eos2"
  else if s = "Planned, May occur" then some "eocstat:eos3"
  else if s = "Planned, occurrence highly likely" then some "eocstat:eos4"
  else if s = "Planned, occurs certainly" then some "eocstat:eos5"
  else none

/-- The `occur_status` sub-dict. -/
structure OccurStatus where
  qcode : String
  name : String
  label : String
deriving DecidableEq, Repr

/-- One entry of the `calendars` list. -/
structure Calendar where
  is_active : Bool
  name : String
  qcode : String
deriving DecidableEq, Repr

/-- One entry of the `location` list (`address.line` has one element). -/
structure Location where
  name : String
  line : String
  locality : String
  area : String
  country : String
deriving DecidableEq, Repr

/-- One entry of `contact.contact_phone`; `pub` is the `public` key. -/
structure Phone where
  number : String
  pub : Bool
  usage : String
deriving DecidableEq, Repr

/-- The `contact` sub-dict. -/
structure Contact where
  honorific : String
  first_name : String
  last_name : String
  organisation : String
  contact_email : List String
  contact_phone : List Phone
deriving DecidableEq, Repr

/-- The event dict built in lines 163-223; `dates` is flattened into
`start_dt` / `end_dt` / `tz`, and `state` is the `ITEM_STATE` default. -/
structure Item where
  name : String
  slugline : String
  start_dt : Int
  end_dt : Int
  tz : String
  occur : OccurStatus
  definition_short : String
  definition_long : String
  internal_note : String
  ednote : String
  links : List String
  guid : String
  status : Option String
  version : Nat
  calendars : Option Calendar
  location : Option Location
  contact : Option Contact
  state : String
deriving DecidableEq, Repr

/-- Lift a parser result into the row monad: `dateutil` raises `ValueError`,
which the row's `except` clause catches with `e.args[0]` as message. -/
def liftParse (r : Except String Int) : Except RowFail Int :=
  match r with
  | Except.ok v => Except.ok v
  | Except.error m => Except.error (RowFail.caught m)

/-- The fields of the event dict that come from the row's cells (everything
except the row-independent `version` / `state` constants and the `guid` /
`status` values computed before the `try:`). -/
structure ItemCore where
  name : String
  slugline : String
  start_dt : Int
  end_dt : Int
  tz : String
  occur : OccurStatus
  definition_short : String
  definition_long : String
  internal_note : String
  ednote : String
  links : List String
  calendars : Option Calendar
  location : Option Location
  contact : Option Contact
deriving DecidableEq, Repr

/-- Complete the event dict with the row's identifier and prior status, the
constant `version: 1` and the `ITEM_STATE` draft default. -/
def ItemCore.withIdentity (c : ItemCore) (guid : String)
    (statusUp : Option String) : Item :=
  { name := c.name
    slugline := c.slugline
    start_dt := c.start_dt
    end_dt := c.end_dt
    tz := c.tz
    occur := c.occur
    definition_short := c.definition_short
    definition_long := c.definition_long
    internal_note := c.internal_note
    ednote := c.ednote
    links := c.links
    guid := guid
    status := statusUp
    version := 1
    calendars := c.calendars
    location := c.location
    contact := c.contact
    state := "draft" }

/-- The `try:` body of the row loop (lines 152-223): resolve the timezone,
compose the start and end instants, and assemble the event fields including
the optional calendars / location / contact blocks.  Reads of `values` happen
in the source's evaluation order (Python's `all(...)` generators and the
`and`/`or` operators short-circuit, so cells after a falsy one are not
read). -/
def buildCore (env : Env) (idx : ColumnIndex) (values : List String) :
    Except RowFail ItemCore := do
  let tzRaw ← getV values idx.tzone
  let tzoneName := if tzRaw ≠ "none" then tzRaw else env.localTz
  if ¬ env.tzdb tzoneName then
    throw (RowFail.caught "Invalid timezone")
  let sd ← getV values idx.startDate
  let st ← getV values idx.startTime
  let startDT ← liftParse (env.parseLoc tzoneName (sd ++ " " ++ st))
  let endDateRaw ← getV values idx.endDate
  let allDayRaw ← getV values idx.allDay
  let endDT ←
    if allDayRaw = "TRUE" then do
      -- end of the start date: parse(start date) + timedelta(days=1, seconds=-1)
      let sd2 ← getV values idx.startDate
      let p ← liftParse (env.parseLoc tzoneName sd2)
      pure (p + 86399)
    else do
      let et ← getV values idx.endTime
      liftParse (env.parseLoc tzoneName (endDateRaw ++ " " ++ et))
  let nameV ← getV values idx.eventName
  let slugV ← getV values idx.slugline
  let occLabel ← getV values idx.occurStatus
  let qcode ←
    match occurStatusQcode occLabel with
    | some q => pure q
    | none => throw (RowFail.caught occLabel)
  let descrV ← getV values idx.descr
  let longV ← getV values idx.longDescr
  let inoteV ← getV values idx.internalNote
  let edV ← getV values idx.edNote
  let linksV ← getV values idx.extLinks
  let calV ← getV values idx.calendars
  let calOpt : Option Calendar :=
    if calV ≠ "" then some ⟨true, calV, lowerStr calV⟩ else none
  let locOpt : Option Location ←
    (do
      let ln ← getV values idx.locName
      if ln = "" then pure none
      else do
        let la ← getV values idx.locAddr
        if la = "" then pure none
        else do
          let lco ← getV values idx.locCountry
          if lco = "" then pure none
          else do
            let lci ← getV values idx.locCity
            let lst ← getV values idx.locState
            pure (some ⟨ln, la, lci, lst, lco⟩))
  let contactOpt : Option Contact ←
    (do
      let ce ← getV values idx.cEmail
      if ce = "" then pure none
      else do
        let cp ← getV values idx.cPhone
        if cp = "" then pure none
        else do
          let cf ← getV values idx.cFirst
          let innerOk ←
            if cf = "" then do
              let co ← getV values idx.cOrg
              pure (co != "")
            else do
              let cl ← getV values idx.cLast
              if cl = "" then do
                let co ← getV values idx.cOrg
                pure (co != "")
              else pure true
          if innerOk then do
            let pubRaw ← getV values idx.cPublic
            let usage ← getV values idx.cUsage
            let isPub := if usage = "Confidential" then false else pubRaw == "TRUE"
            let ch ← getV values idx.cHon
            let cf2 ← getV values idx.cFirst
            let cl2 ← getV values idx.cLast
            let co2 ← getV values idx.cOrg
            let ce2 ← getV values idx.cEmail
            let cp2 ← getV values idx.cPhone
            let cu2 ← getV values idx.cUsage
            pure (some ⟨ch, cf2, cl2, co2, [ce2], [⟨cp2, isPub, cu2⟩]⟩)
          else pure none)
  pure
    { name := nameV
      slugline := slugV
      start_dt := startDT
      end_dt := endDT
      tz := tzoneName
      occur := ⟨qcode, occLabel, lowerStr occLabel⟩
      definition_short := descrV
      definition_long := longV
      internal_note := inoteV
      ednote := edV
      links := [linksV]
      calendars := calOpt
      location := locOpt
      contact := contactOpt }

/-- The full per-row transformation: the `try:` body plus the identifier and
prior-status values threaded into the event dict. -/
def buildItem (env : Env) (idx : ColumnIndex) (guid : String)
    (statusUp : Option String) (values : List String) :
    Except RowFail Item :=
  (buildCore env idx values).map (fun c => c.withIdentity guid statusUp)

/-- Line 144: `is_updated` is `None` when the row is shorter than the
`_STATUS` column, else the stripped, upper-cased cell. -/
def statusOf (idx : ColumnIndex) (values : List String) : Option String :=
  if values.length < idx.status + 1 then none
  else some (upperStr (trimStr (values.getD idx.status "")))

/-- Lines 145-151: reuse a `_GUID` only when the row extends *strictly past*
the `_GUID` column (`len(values) - 1 > index['_GUID']`) and the cell is
non-empty; a reused identifier must exist in the events store, otherwise
`KeyError('GUID is not exists')` is raised — outside the `try:`, so it is an
uncaught, run-aborting error. -/
def guidStep (env : Env) (idx : ColumnIndex) (row : Nat)
    (values : List String) : Except String String :=
  if (values.length : Int) - 1 > (idx.guid : Int) ∧ values.getD idx.guid "" ≠ "" then
    let g := values.getD idx.guid ""
    if env.findByGuid g then Except.ok g else Except.error "GUID is not exists"
  else Except.ok (env.genGuid row)

/-- Python truthiness of `is_updated`: falsy when `None` or the empty
string. -/
def notStatus (s : Option String) : Bool :=
  match s with
  | none => true
  | some t => t = ""

/-- Line 233: `not is_updated or is_updated in ('UPDATED', 'ERROR')`. -/
def eligible (s : Option String) : Bool :=
  notStatus s || s = some "UPDATED" || s = some "ERROR"

/-- Line 225: `[field for field in self.required_field if not item.get(field)]`
with `required_field = ['slugline', 'calendars', 'name']`; the `calendars` key
is present (and truthy) exactly when the cell was non-empty. -/
def missingFields (it : Item) : List String :=
  (if it.slugline = "" then ["slugline"] else []) ++
  (if it.calendars = none then ["calendars"] else []) ++
  (if it.name = "" then ["name"] else [])

/-- Lines 251-254: the two cells written for an ERROR-classified row. -/
def errCells (row : Nat) (idx : ColumnIndex) (m : String) : List Cell :=
  [⟨row, idx.status + 1, "ERROR"⟩, ⟨row, idx.err + 1, m⟩]

/-- Lines 234-238: the three cells written for an accepted row. -/
def doneCells (row : Nat) (idx : ColumnIndex) (g : String) : List Cell :=
  [⟨row, idx.status + 1, "DONE"⟩, ⟨row, idx.err + 1, ""⟩, ⟨row, idx.guid + 1, g⟩]

/-- What one row contributed to the run: the item appended to `items` (if
any) and the cells appended to `cells_list`. -/
structure RowOutcome where
  accepted : Option Item
  cells : List Cell
deriving DecidableEq, Repr

/-- One iteration of the row loop (lines 139-254).  A `.error` is an uncaught
exception that aborts the whole run.  Note `if error_message:` (line 250) is
Python truthiness, so a caught exception whose message is the empty string
writes no cells. -/
def processRow (env : Env) (idx : ColumnIndex) (row : Nat)
    (values : List String) : Except String RowOutcome := do
  let statusUp := statusOf idx values
  let guid ← guidStep env idx row values
  match buildItem env idx guid statusUp values with
  | Except.error (RowFail.abort m) => throw m
  | Except.error (RowFail.caught m) =>
      pure ⟨none, if m ≠ "" then errCells row idx m else []⟩
  | Except.ok item =>
      let missing := missingFields item
      if missing ≠ [] then
        pure ⟨none,
          errCells row idx ("Missing " ++ String.intercalate ", " missing ++ " fields")⟩
      else if eligible statusUp then
        pure ⟨some item, doneCells row idx guid⟩
      else
        pure ⟨none, []⟩

/-- The two accumulators of the run: `items` and `cells_list`. -/
structure RunResult where
  items : List Item
  cells : List Cell
deriving DecidableEq, Repr

/-- The row loop from row number `row` over the remaining data rows.
(The source's `if not row: break` is dead code: `row` ranges over 3..N.) -/
def runRowsAux (env : Env) (idx : ColumnIndex) :
    Nat → List (List String) → Except String RunResult
  | _, [] => Except.ok ⟨[], []⟩
  | row, v :: rest => do
      let out ← processRow env idx row v
      let r ← runRowsAux env idx (row + 1) rest
      pure ⟨out.accepted.toList ++ r.items, out.cells ++ r.cells⟩

/-- `for row in range(3, len(data) + 1)`: the first two rows are headers,
data rows are numbered from 3. -/
def runRows (env : Env) (idx : ColumnIndex) (data : List (List String)) :
    Except String RunResult :=
  runRowsAux env idx 3 (data.drop 2)

/-- Lines 255-256: `update_cells` is called once, and only when the batch is
non-empty; the run performs no other write. -/
def writeCalls (r : RunResult) : List (List Cell) :=
  if r.cells.isEmpty then [] else [r.cells]

/-- A full-width row in the canonical layout, one named cell per column;
`toList` lays the cells out at the `stdIdx` positions. -/
structure RowVals where
  startDate : String
  startTime : String
  endDate : String
  endTime : String
  allDay : String
  tzone : String
  slugline : String
  eventName : String
  descr : String
  occurStatus : String
  calendars : String
  locName : String
  locAddr : String
  locCity : String
  locState : String
  locCountry : String
  cHon : String
  cFirst : String
  cLast : String
  cOrg : String
  cPoc : String
  cEmail : String
  cPhone : String
  cUsage : String
  cPublic : String
  longDescr : String
  internalNote : String
  edNote : String
  extLinks : String
  statusCell : String
  errCell : String
  guidCell : String
deriving DecidableEq, Repr

/-- The row as the list of strings handed to the row loop. -/
def RowVals.toList (r : RowVals) : List String :=
  [r.startDate, r.startTime, r.endDate, r.endTime, r.allDay, r.tzone,
   r.slugline, r.eventName, r.descr, r.occurStatus, r.calendars, r.locName,
   r.locAddr, r.locCity, r.locState, r.locCountry, r.cHon, r.cFirst, r.cLast,
   r.cOrg, r.cPoc, r.cEmail, r.cPhone, r.cUsage, r.cPublic, r.longDescr,
   r.internalNote, r.edNote, r.extLinks, r.statusCell, r.errCell, r.guidCell]

/-- A concrete environment used by the witnesses: the events store knows the
single identifier "guid-1", the timezone database knows "UTC" and the local
zone, and the parser accepts any non-empty text, returning its length as the
instant. -/
def testEnv : Env where
  findByGuid := fun g => g == "guid-1"
  genGuid := fun r => "gen-" ++ toString r
  localTz := "Local/Zone"
  tzdb := fun s => s == "UTC" || s == "Local/Zone"
  parseLoc := fun _tz s =>
    if s = "" then Except.error "String does not contain a date" else Except.ok (s.length : Int)

/-- A data row that passes every check: parseable dates, known timezone,
recognized occurrence label, non-empty slugline / calendars / event name,
empty status, empty `_GUID`. -/
def sampleRow : RowVals where
  startDate := "2024-01-10"
  startTime := "09:00"
  endDate := "2024-01-10"
  endTime := "10:00"
  allDay := "FALSE"
  tzone := "UTC"
  slugline := "slug"
  eventName := "Event"
  descr := "d"
  occurStatus := "Unplanned event"
  calendars := "General"
  locName := ""
  locAddr := ""
  locCity := ""
  locState := ""
  locCountry := ""
  cHon := ""
  cFirst := ""
  cLast := ""
  cOrg := ""
  cPoc := ""
  cEmail := ""
  cPhone := ""
  cUsage := ""
  cPublic := ""
  longDescr := ""
  internalNote := ""
  edNote := ""
  extLinks := ""
  statusCell := ""
  errCell := ""
  guidCell := ""

/-- The event produced for `sampleRow` by `testEnv` (fresh guid "gen-3",
instants are the parsed strings' lengths). -/
def okItem : Item where
  name := "Event"
  slugline := "slug"
  start_dt := 16
  end_dt := 16
  tz := "UTC"
  occur := ⟨"eocstat:eos0", "Unplanned event", "unplanned event"⟩
  definition_short := "d"
  definition_long := ""
  internal_note := ""
  ednote := ""
  links := [""]
  guid := "gen-3"
  status := some ""
  version := 1
  calendars := some ⟨true, "General", "general"⟩
  location := none
  contact := none
  state := "draft"

/-- The candidate produced for `sampleRow` with an empty "Calendars" cell:
identical to `okItem` except that the `calendars` key is absent. -/
def c1Item : Item := { okItem with calendars := none }

/-- A grid whose first data row (row 3) carries a `_GUID` unknown to the
events store (the row is one cell wider than the `_GUID` column, so the
identifier check fires) and whose second data row (row 4) is valid. -/
def c3Grid : List (List String) :=
  [[], [], ({ sampleRow with guidCell := "missing-guid" } : RowVals).toList ++ [""],
   sampleRow.toList]

/-- The timezone name used for a row: the cell unless it is the literal
"none", in which case the local zone (line 154). -/
def resolvedTz (env : Env) (r : RowVals) : String :=
  if r.tzone ≠ "none" then r.tzone else env.localTz

/-- The optional location block computed for a full-width row
(lines 194-203). -/
def locOf (r : RowVals) : Option Location :=
  if r.locName = "" then none
  else if r.locAddr = "" then none
  else if r.locCountry = "" then none
  else some ⟨r.locName, r.locAddr, r.locCity, r.locState, r.locCountry⟩

/-- The contact entry built from a full-width row's cells (lines 208-222):
phone visibility is the "Contact Phone Public" flag, forced off when usage
is "Confidential". -/
def contactEntry (r : RowVals) : Contact :=
  ⟨r.cHon, r.cFirst, r.cLast, r.cOrg, [r.cEmail],
   [⟨r.cPhone, if r.cUsage = "Confidential" then false else r.cPublic == "TRUE", r.cUsage⟩]⟩

/-- The optional contact block computed for a full-width row
(lines 204-222). -/
def contactOf (r : RowVals) : Option Contact :=
  if r.cEmail = "" then none
  else if r.cPhone = "" then none
  else if r.cFirst = "" then (if r.cOrg != "" then some (contactEntry r) else none)
  else if r.cLast = "" then (if r.cOrg != "" then some (contactEntry r) else none)
  else some (contactEntry r)

/-- The calendars block computed for a full-width row (lines 186-192). -/
def calOf (r : RowVals) : Option Calendar :=
  if r.calendars ≠ "" then some ⟨true, r.calendars, lowerStr r.calendars⟩ else none

/-- `sampleRow` with the all-day flag set. -/
def r6 : RowVals := { sampleRow with allDay := "TRUE" }

/-- The event for `r6`: like `okItem` but the end instant is the parsed
start date (10) plus one day minus one second. -/
def item6 : Item := { okItem with end_dt := 86409 }

/-- `sampleRow` with a contact block reachable through the organisation
alternative and a confidential phone usage. -/
def r7 : RowVals :=
  { sampleRow with cEmail := "a@b.c", cPhone := "123", cOrg := "Org",
                   cUsage := "Confidential", cPublic := "TRUE" }

/-- The event for `r7`: `okItem` plus the populated contact block whose
phone is non-public despite Contact Phone Public = "TRUE". -/
def item7 : Item :=
  { okItem with contact := some ⟨"", "", "", "Org", ["a@b.c"],
      [⟨"123", false, "Confidential"⟩]⟩ }

/-- `sampleRow` with a lower-case all-day flag and a padded lower-case
status cell. -/
def r10 : RowVals := { sampleRow with allDay := "true", statusCell := " done " }

/-- Right-pad a row with empty cells to length at least `n`. -/
def padTo (l : List String) (n : Nat) : List String :=
  l ++ List.replicate (n - l.length) ""

/-- Apply one cell write to its row: the remote sheet pads the row as needed
and overwrites the 1-based column `c.col`. -/
def applyCellToRow (v : List String) (c : Cell) : List String :=
  (padTo v c.col).set (c.col - 1) c.value

/-- Apply a batch of cell writes to one row. -/
def applyRowCells (v : List String) (cs : List Cell) : List String :=
  cs.foldl applyCellToRow v

/-- Claim C1, counterexample: a row whose candidate is missing the required
"calendars" field is excluded from the accepted events, but — contrary to the
claim — write-back cells ARE emitted for it: `_STATUS` is queued as "ERROR"
(column `stdIdx.status + 1`) with the missing-fields reason as
`_ERR_MESSAGE`, exactly like any other ERROR-classified row. -/
theorem c1_missing_fields_cells_are_emitted :
    processRow testEnv stdIdx 3 ({ sampleRow with calendars := "" } : RowVals).toList =
      Except.ok ⟨none, [⟨3, stdIdx.status + 1, "ERROR"⟩,
                        ⟨3, stdIdx.err + 1, "Missing calendars fields"⟩]⟩ ∧
    ([⟨3, stdIdx.status + 1, "ERROR"⟩,
      ⟨3, stdIdx.err + 1, "Missing calendars fields"⟩] : List Cell) ≠ [] :=
  ⟨rfl, by decide⟩

/-- Claim C1, amended: for every data row whose transformed candidate is
missing one or more of the required fields (name, slugline, calendars), the
row is excluded from the accepted events set, but its `_STATUS` cell is
queued as "ERROR" and its `_ERR_MESSAGE` as "Missing <fields> fields" — the
same write-back shape as any other row-scoped error, so the row remains
eligible for reprocessing because "ERROR" is an eligible prior status. -/
theorem c1_missing_required_fields_rejected_with_error_status (env : Env)
    (idx : ColumnIndex) (row : Nat) (values : List String) (guid : String)
    (item : Item)
    (hg : guidStep env idx row values = Except.ok guid)
    (hbi : buildItem env idx guid (statusOf idx values) values = Except.ok item)
    (hmiss : missingFields item ≠ []) :
    processRow env idx row values =
      Except.ok ⟨none, errCells row idx
        ("Missing " ++ String.intercalate ", " (missingFields item) ++ " fields")⟩ := by
  simp only [processRow, bind, Except.bind, hg, hbi, hmiss, if_true]
  simp [hmiss, pure, Except.pure]

/-- Witness for the amended C1 at a concrete input. -/
theorem c1_amended_witness :
    processRow testEnv stdIdx 3 ({ sampleRow with calendars := "" } : RowVals).toList =
      Except.ok ⟨none, errCells 3 stdIdx "Missing calendars fields"⟩ := by
  exact c1_missing_required_fields_rejected_with_error_status testEnv stdIdx 3
    ({ sampleRow with calendars := "" } : RowVals).toList "gen-3" c1Item
    rfl rfl (by decide)

/-- Claim C3 (a code bug): a non-empty `_GUID` with no match in the events
store raises `KeyError('GUID is not exists')` at line 149, *outside* the
`try:` block that begins at line 152 — even though its `except` clause
catches `KeyError` and would have recorded `e.args[0]` as the row's error
message.  The failure is therefore not row-scoped: the run aborts and the
valid row behind the bad one is never processed, while the same grid without
the bad row ingests its valid row normally. -/
theorem c3_guid_not_found_aborts_run :
    testEnv.findByGuid "missing-guid" = false ∧
    runRows testEnv stdIdx c3Grid = Except.error "GUID is not exists" ∧
    runRows testEnv stdIdx [[], [], sampleRow.toList] =
      Except.ok ⟨[okItem], doneCells 3 stdIdx "gen-3"⟩ :=
  ⟨rfl, rfl, rfl⟩

/-- Claim C4, counterexample: a row that extends exactly TO the `_GUID`
column (length = `stdIdx.guid + 1`) with the known identifier "guid-1" in
that cell does NOT get it reused: line 145's `len(values) - 1 >
index['_GUID']` is an off-by-one, so a fresh identifier ("gen-3") is
generated instead. -/
theorem c4_guid_in_last_cell_not_reused :
    (({ sampleRow with guidCell := "guid-1" } : RowVals).toList).getD stdIdx.guid "" =
      "guid-1" ∧
    testEnv.findByGuid "guid-1" = true ∧
    (({ sampleRow with guidCell := "guid-1" } : RowVals).toList).length =
      stdIdx.guid + 1 ∧
    guidStep testEnv stdIdx 3 ({ sampleRow with guidCell := "guid-1" } : RowVals).toList =
      Except.ok "gen-3" ∧
    ("gen-3" : String) ≠ "guid-1" :=
  ⟨rfl, rfl, rfl, rfl, by decide⟩

/-- Claim C4, amended: the `_GUID` cell is reused only when the row extends
*strictly past* the `_GUID` column (`len(values) - 1 > index['_GUID']`) and
the cell is non-empty and the identifier is found in the events store; if
the row ends at (or before) the `_GUID` column, or the cell is empty, a
fresh identifier is generated even when a non-empty identifier is present in
the row's last cell; a reused-but-unknown identifier aborts the run. -/
theorem c4_guid_reuse_requires_longer_row (env : Env) (idx : ColumnIndex)
    (row : Nat) (values : List String) :
    (((values.length : Int) - 1 > (idx.guid : Int)) →
      values.getD idx.guid "" ≠ "" →
      env.findByGuid (values.getD idx.guid "") = true →
      guidStep env idx row values = Except.ok (values.getD idx.guid "")) ∧
    ((((values.length : Int) - 1 ≤ (idx.guid : Int)) ∨ values.getD idx.guid "" = "") →
      guidStep env idx row values = Except.ok (env.genGuid row)) ∧
    (((values.length : Int) - 1 > (idx.guid : Int)) →
      values.getD idx.guid "" ≠ "" →
      env.findByGuid (values.getD idx.guid "") = false →
      guidStep env idx row values = Except.error "GUID is not exists") := by
  refine ⟨?_, ?_, ?_⟩
  · intro h1 h2 h3
    unfold guidStep
    rw [if_pos ⟨h1, h2⟩, if_pos h3]
  · intro h
    have hn : ¬(((values.length : Int) - 1 > (idx.guid : Int)) ∧
        values.getD idx.guid "" ≠ "") := by
      rcases h with h | h
      · intro hc
        exact absurd hc.1 (by omega)
      · intro hc
        exact hc.2 h
    unfold guidStep
    rw [if_neg hn]
  · intro h1 h2 h3
    unfold guidStep
    rw [if_pos ⟨h1, h2⟩]
    simp only [h3]
    simp

/-- Witness for the amended C4 at concrete inputs: with one spare column past
`_GUID` the identifier "guid-1" IS reused, and on `sampleRow` (empty `_GUID`)
a fresh identifier is generated. -/
theorem c4_amended_witness :
    guidStep testEnv stdIdx 3
        (({ sampleRow with guidCell := "guid-1" } : RowVals).toList ++ [""]) =
      Except.ok "guid-1" ∧
    guidStep testEnv stdIdx 3 sampleRow.toList = Except.ok "gen-3" := by
  have h1 := (c4_guid_reuse_requires_longer_row testEnv stdIdx 3
    (({ sampleRow with guidCell := "guid-1" } : RowVals).toList ++ [""])).1
    (by decide) (by decide) (by decide)
  have h2 := (c4_guid_reuse_requires_longer_row testEnv stdIdx 3
    sampleRow.toList).2.1 (Or.inr (by decide))
  exact ⟨by simpa using h1, by simpa using h2⟩

/-- Claim C5: for a row that passes validation (candidate built, no missing
required fields), the candidate is accepted and the DONE write-back queued
exactly when the normalized prior status is empty (or the row is too short
to have one), "UPDATED", or "ERROR" — the `eligible` predicate; a valid row
already "DONE" contributes no write-back cells and no accepted item; and for
every row whatsoever, any cell queued for the `_STATUS` column carries
"DONE" or "ERROR", so the final status of any row is unchanged, "DONE" or
"ERROR". -/
theorem c5_commit_gate (env : Env) (idx : ColumnIndex) (row : Nat)
    (values : List String) (guid : String) (item : Item) (out : RowOutcome)
    (hes : idx.err ≠ idx.status) (hgs : idx.guid ≠ idx.status)
    (hg : guidStep env idx row values = Except.ok guid)
    (hbi : buildItem env idx guid (statusOf idx values) values = Except.ok item)
    (hmiss : missingFields item = [])
    (hout : processRow env idx row values = Except.ok out) :
    ((out.accepted = some item ∧ out.cells = doneCells row idx guid) ↔
      eligible (statusOf idx values) = true) ∧
    (statusOf idx values = some "DONE" → out = ⟨none, []⟩) ∧
    (∀ values2 out2, processRow env idx row values2 = Except.ok out2 →
      ∀ c ∈ out2.cells, c.col = idx.status + 1 →
        c.value = "DONE" ∨ c.value = "ERROR") := by
  simp only [processRow, bind, Except.bind, hg, hbi, hmiss, pure, Except.pure] at hout
  rw [if_neg (by simp)] at hout
  refine ⟨?_, ?_, ?_⟩
  · by_cases he : eligible (statusOf idx values) = true
    · rw [if_pos he] at hout
      injection hout with h
      subst h
      simp [he]
    · rw [if_neg he] at hout
      injection hout with h
      subst h
      simp [he]
  · intro hdone
    rw [hdone] at hout
    rw [if_neg (by decide)] at hout
    injection hout with h
    exact h.symm
  · intro values2 out2 hp c hc hcol
    cases hg2 : guidStep env idx row values2 with
    | error m => simp [processRow, bind, Except.bind, hg2] at hp
    | ok g2 =>
      cases hb2 : buildItem env idx g2 (statusOf idx values2) values2 with
      | error f =>
        cases f with
        | abort m =>
          simp [processRow, bind, Except.bind, hg2, hb2, throw, throwThe,
            MonadExceptOf.throw] at hp
        | caught m =>
          simp only [processRow, bind, Except.bind, hg2, hb2, pure,
            Except.pure] at hp
          injection hp with h
          subst h
          by_cases hm : m = ""
          · simp [hm] at hc
          · simp [hm, errCells] at hc
            rcases hc with hc | hc <;> subst hc
            · simp
            · simp at hcol
              omega
      | ok item2 =>
        simp only [processRow, bind, Except.bind, hg2, hb2, pure,
          Except.pure] at hp
        by_cases hm2 : missingFields item2 = []
        · rw [if_neg (by simp [hm2])] at hp
          by_cases he2 : eligible (statusOf idx values2) = true
          · rw [if_pos he2] at hp
            injection hp with h
            subst h
            simp [doneCells] at hc
            rcases hc with hc | hc | hc <;> subst hc
            · simp
            · simp at hcol
              omega
            · simp at hcol
              omega
          · rw [if_neg he2] at hp
            injection hp with h
            subst h
            simp at hc
        · rw [if_pos hm2] at hp
          injection hp with h
          subst h
          simp [errCells] at hc
          rcases hc with hc | hc <;> subst hc
          · simp
          · simp at hcol
            omega

/-- Witness for C5 at a concrete input: `sampleRow` has an empty prior
status, so acceptance with the DONE cells holds and `eligible` is true. -/
theorem c5_commit_gate_witness :
    ((⟨some okItem, doneCells 3 stdIdx "gen-3"⟩ : RowOutcome).accepted = some okItem ∧
      (⟨some okItem, doneCells 3 stdIdx "gen-3"⟩ : RowOutcome).cells =
        doneCells 3 stdIdx "gen-3") ↔
      eligible (statusOf stdIdx sampleRow.toList) = true :=
  (c5_commit_gate testEnv stdIdx 3 sampleRow.toList "gen-3" okItem
    ⟨some okItem, doneCells 3 stdIdx "gen-3"⟩ (by decide) (by decide)
    rfl rfl rfl rfl).1

/-- Claim C8: the run's only remote write is a single batched `update_cells`
call, issued only when the accumulated batch is non-empty; a row classified
as ERROR (a caught failure with a non-empty message, or missing required
fields) contributes exactly two cells (status=ERROR, message=reason), and a
row that succeeds and was eligible contributes exactly three (status=DONE,
message=empty, identifier=guid). -/
theorem c8_single_batch_and_cell_counts (env : Env) (idx : ColumnIndex) :
    (∀ data res, runRows env idx data = Except.ok res →
      (res.cells = [] → writeCalls res = []) ∧
      (res.cells ≠ [] → writeCalls res = [res.cells])) ∧
    (∀ row values guid m, guidStep env idx row values = Except.ok guid →
      buildItem env idx guid (statusOf idx values) values =
        Except.error (RowFail.caught m) →
      m ≠ "" →
      processRow env idx row values = Except.ok ⟨none, errCells row idx m⟩ ∧
        (errCells row idx m).length = 2) ∧
    (∀ row values guid item, guidStep env idx row values = Except.ok guid →
      buildItem env idx guid (statusOf idx values) values = Except.ok item →
      missingFields item ≠ [] →
      processRow env idx row values = Except.ok ⟨none, errCells row idx
          ("Missing " ++ String.intercalate ", " (missingFields item) ++ " fields")⟩ ∧
        (errCells row idx
          ("Missing " ++ String.intercalate ", " (missingFields item) ++ " fields")).length = 2) ∧
    (∀ row values guid item, guidStep env idx row values = Except.ok guid →
      buildItem env idx guid (statusOf idx values) values = Except.ok item →
      missingFields item = [] → eligible (statusOf idx values) = true →
      processRow env idx row values = Except.ok ⟨some item, doneCells row idx guid⟩ ∧
        (doneCells row idx guid).length = 3) := by
  refine ⟨?_, ?_, ?_, ?_⟩
  · intro data res _h
    constructor
    · intro hc
      simp [writeCalls, hc]
    · intro hc
      simp [writeCalls, hc]
  · intro row values guid m hg hbi hm
    refine ⟨?_, rfl⟩
    simp only [processRow, bind, Except.bind, hg, hbi, pure, Except.pure, hm]
    simp [hm]
  · intro row values guid item hg hbi hm
    refine ⟨?_, rfl⟩
    simp only [processRow, bind, Except.bind, hg, hbi, pure, Except.pure]
    rw [if_pos hm]
  · intro row values guid item hg hbi hm he
    refine ⟨?_, rfl⟩
    simp only [processRow, bind, Except.bind, hg, hbi, pure, Except.pure]
    rw [if_neg (by simp [hm]), if_pos he]

/-- Witness for C8 at concrete inputs: the one-valid-row run issues a single
write of its 3-cell batch, a bad-timezone row contributes 2 cells, a
missing-calendars row contributes 2 cells, and `sampleRow` contributes 3. -/
theorem c8_witness :
    writeCalls ⟨[okItem], doneCells 3 stdIdx "gen-3"⟩ = [doneCells 3 stdIdx "gen-3"] ∧
    processRow testEnv stdIdx 3 ({ sampleRow with tzone := "Mars" } : RowVals).toList =
      Except.ok ⟨none, errCells 3 stdIdx "Invalid timezone"⟩ ∧
    (errCells 3 stdIdx "Invalid timezone").length = 2 ∧
    processRow testEnv stdIdx 3 sampleRow.toList =
      Except.ok ⟨some okItem, doneCells 3 stdIdx "gen-3"⟩ ∧
    (doneCells 3 stdIdx "gen-3").length = 3 := by
  have h := c8_single_batch_and_cell_counts testEnv stdIdx
  have h1 := (h.1 [[], [], sampleRow.toList] ⟨[okItem], doneCells 3 stdIdx "gen-3"⟩ rfl).2
    (by decide)
  have h2 := h.2.1 3 ({ sampleRow with tzone := "Mars" } : RowVals).toList "gen-3"
    "Invalid timezone" rfl rfl (by decide)
  have h4 := h.2.2.2 3 sampleRow.toList "gen-3" okItem rfl rfl (by decide) (by decide)
  exact ⟨h1, h2.1, h2.2, h4.1, h4.2⟩

theorem rowv_startDate (r : RowVals) : getV r.toList 0 = Except.ok r.startDate := rfl

theorem rowv_startTime (r : RowVals) : getV r.toList 1 = Except.ok r.startTime := rfl

theorem rowv_endDate (r : RowVals) : getV r.toList 2 = Except.ok r.endDate := rfl

theorem rowv_endTime (r : RowVals) : getV r.toList 3 = Except.ok r.endTime := rfl

theorem rowv_allDay (r : RowVals) : getV r.toList 4 = Except.ok r.allDay := rfl

theorem rowv_tzone (r : RowVals) : getV r.toList 5 = Except.ok r.tzone := rfl

theorem rowv_slugline (r : RowVals) : getV r.toList 6 = Except.ok r.slugline := rfl

theorem rowv_eventName (r : RowVals) : getV r.toList 7 = Except.ok r.eventName := rfl

theorem rowv_descr (r : RowVals) : getV r.toList 8 = Except.ok r.descr := rfl

theorem rowv_occurStatus (r : RowVals) : getV r.toList 9 = Except.ok r.occurStatus := rfl

theorem rowv_calendars (r : RowVals) : getV r.toList 10 = Except.ok r.calendars := rfl

theorem rowv_locName (r : RowVals) : getV r.toList 11 = Except.ok r.locName := rfl

theorem rowv_locAddr (r : RowVals) : getV r.toList 12 = Except.ok r.locAddr := rfl

theorem rowv_locCity (r : RowVals) : getV r.toList 13 = Except.ok r.locCity := rfl

theorem rowv_locState (r : RowVals) : getV r.toList 14 = Except.ok r.locState := rfl

theorem rowv_locCountry (r : RowVals) : getV r.toList 15 = Except.ok r.locCountry := rfl

theorem rowv_cHon (r : RowVals) : getV r.toList 16 = Except.ok r.cHon := rfl

theorem rowv_cFirst (r : RowVals) : getV r.toList 17 = Except.ok r.cFirst := rfl

theorem rowv_cLast (r : RowVals) : getV r.toList 18 = Except.ok r.cLast := rfl

theorem rowv_cOrg (r : RowVals) : getV r.toList 19 = Except.ok r.cOrg := rfl

theorem rowv_cPoc (r : RowVals) : getV r.toList 20 = Except.ok r.cPoc := rfl

theorem rowv_cEmail (r : RowVals) : getV r.toList 21 = Except.ok r.cEmail := rfl

theorem rowv_cPhone (r : RowVals) : getV r.toList 22 = Except.ok r.cPhone := rfl

theorem rowv_cUsage (r : RowVals) : getV r.toList 23 = Except.ok r.cUsage := rfl

theorem rowv_cPublic (r : RowVals) : getV r.toList 24 = Except.ok r.cPublic := rfl

theorem rowv_longDescr (r : RowVals) : getV r.toList 25 = Except.ok r.longDescr := rfl

theorem rowv_internalNote (r : RowVals) : getV r.toList 26 = Except.ok r.internalNote := rfl

theorem rowv_edNote (r : RowVals) : getV r.toList 27 = Except.ok r.edNote := rfl

theorem rowv_extLinks (r : RowVals) : getV r.toList 28 = Except.ok r.extLinks := rfl

/-- Evaluation of the `try:` body on a full-width row whose "All day" cell is
exactly "TRUE": the end instant is the parsed start date plus
`timedelta(days=1, seconds=-1)`, i.e. one day minus one second past the start
of the start date, and the End date / End time cells never reach a parser. -/
theorem buildCore_allday (env : Env) (r : RowVals) (t1 t2 : Int) (q : String)
    (htz : env.tzdb (resolvedTz env r) = true)
    (hp1 : env.parseLoc (resolvedTz env r) (r.startDate ++ " " ++ r.startTime) = Except.ok t1)
    (had : r.allDay = "TRUE")
    (hp2 : env.parseLoc (resolvedTz env r) r.startDate = Except.ok t2)
    (hoc : occurStatusQcode r.occurStatus = some q) :
    buildCore env stdIdx r.toList = Except.ok
      { name := r.eventName, slugline := r.slugline, start_dt := t1, end_dt := t2 + 86399,
        tz := resolvedTz env r,
        occur := ⟨q, r.occurStatus, lowerStr r.occurStatus⟩,
        definition_short := r.descr, definition_long := r.longDescr,
        internal_note := r.internalNote, ednote := r.edNote, links := [r.extLinks],
        calendars := calOf r, location := locOf r, contact := contactOf r } := by
  have htz2 : env.tzdb (if ¬r.tzone = "none" then r.tzone else env.localTz) = true := by
    simpa [resolvedTz, ne_eq] using htz
  have hp12 : env.parseLoc (if ¬r.tzone = "none" then r.tzone else env.localTz)
      (r.startDate ++ " " ++ r.startTime) = Except.ok t1 := by
    simpa [resolvedTz, ne_eq] using hp1
  have hp22 : env.parseLoc (if ¬r.tzone = "none" then r.tzone else env.localTz)
      r.startDate = Except.ok t2 := by
    simpa [resolvedTz, ne_eq] using hp2
  simp only [buildCore, stdIdx, rowv_startDate, rowv_startTime, rowv_endDate,
    rowv_endTime, rowv_allDay, rowv_tzone, rowv_slugline, rowv_eventName, rowv_descr,
    rowv_occurStatus, rowv_calendars, rowv_locName, rowv_locAddr, rowv_locCity,
    rowv_locState, rowv_locCountry, rowv_cHon, rowv_cFirst, rowv_cLast, rowv_cOrg,
    rowv_cPoc, rowv_cEmail, rowv_cPhone, rowv_cUsage, rowv_cPublic, rowv_longDescr,
    rowv_internalNote, rowv_edNote, rowv_extLinks,
    bind, Except.bind, pure, Except.pure, liftParse, Except.map,
    resolvedTz, htz2, hp12, had, hp22, hoc, ne_eq, if_true, ite_true,
    not_true_eq_false, if_false, ← apply_ite Except.ok,
    calOf, locOf, contactOf, contactEntry]

/-- Evaluation of the `try:` body on a full-width row whose "All day" cell is
anything but the exact string "TRUE": the end instant is composed from the
End date and End time cells. -/
theorem buildCore_not_allday (env : Env) (r : RowVals) (t1 t2 : Int) (q : String)
    (htz : env.tzdb (resolvedTz env r) = true)
    (hp1 : env.parseLoc (resolvedTz env r) (r.startDate ++ " " ++ r.startTime) = Except.ok t1)
    (had : r.allDay ≠ "TRUE")
    (hp2 : env.parseLoc (resolvedTz env r) (r.endDate ++ " " ++ r.endTime) = Except.ok t2)
    (hoc : occurStatusQcode r.occurStatus = some q) :
    buildCore env stdIdx r.toList = Except.ok
      { name := r.eventName, slugline := r.slugline, start_dt := t1, end_dt := t2,
        tz := resolvedTz env r,
        occur := ⟨q, r.occurStatus, lowerStr r.occurStatus⟩,
        definition_short := r.descr, definition_long := r.longDescr,
        internal_note := r.internalNote, ednote := r.edNote, links := [r.extLinks],
        calendars := calOf r, location := locOf r, contact := contactOf r } := by
  have htz2 : env.tzdb (if ¬r.tzone = "none" then r.tzone else env.localTz) = true := by
    simpa [resolvedTz, ne_eq] using htz
  have hp12 : env.parseLoc (if ¬r.tzone = "none" then r.tzone else env.localTz)
      (r.startDate ++ " " ++ r.startTime) = Except.ok t1 := by
    simpa [resolvedTz, ne_eq] using hp1
  have hp22 : env.parseLoc (if ¬r.tzone = "none" then r.tzone else env.localTz)
      (r.endDate ++ " " ++ r.endTime) = Except.ok t2 := by
    simpa [resolvedTz, ne_eq] using hp2
  simp only [buildCore, stdIdx, rowv_startDate, rowv_startTime, rowv_endDate,
    rowv_endTime, rowv_allDay, rowv_tzone, rowv_slugline, rowv_eventName, rowv_descr,
    rowv_occurStatus, rowv_calendars, rowv_locName, rowv_locAddr, rowv_locCity,
    rowv_locState, rowv_locCountry, rowv_cHon, rowv_cFirst, rowv_cLast, rowv_cOrg,
    rowv_cPoc, rowv_cEmail, rowv_cPhone, rowv_cUsage, rowv_cPublic, rowv_longDescr,
    rowv_internalNote, rowv_edNote, rowv_extLinks,
    bind, Except.bind, pure, Except.pure, liftParse, Except.map,
    resolvedTz, htz2, hp12, eq_false had, hp22, hoc, ne_eq, if_true, ite_true,
    if_false, ite_false, not_true_eq_false, ← apply_ite Except.ok,
    calOf, locOf, contactOf, contactEntry]

/-- A populated contact block is always the entry built from the row's
contact cells. -/
theorem contactOf_eq_some (r : RowVals) (c : Contact) (h : contactOf r = some c) :
    c = contactEntry r := by
  unfold contactOf at h
  split at h
  · exact Option.noConfusion h
  · split at h
    · exact Option.noConfusion h
    · split at h
      · split at h
        · exact (Option.some.inj h).symm
        · exact Option.noConfusion h
      · split at h
        · split at h
          · exact (Option.some.inj h).symm
          · exact Option.noConfusion h
        · exact (Option.some.inj h).symm

/-- The contact block is populated exactly when email and phone are
non-empty and either both first and last name are non-empty or the
organisation is. -/
theorem contactOf_ne_none_iff (r : RowVals) :
    contactOf r ≠ none ↔ (r.cEmail ≠ "" ∧ r.cPhone ≠ "" ∧
      ((r.cFirst ≠ "" ∧ r.cLast ≠ "") ∨ r.cOrg ≠ "")) := by
  unfold contactOf
  by_cases h1 : r.cEmail = "" <;> by_cases h2 : r.cPhone = "" <;>
    by_cases h3 : r.cFirst = "" <;> by_cases h4 : r.cLast = "" <;>
    by_cases h5 : r.cOrg = "" <;>
    simp [h1, h2, h3, h4, h5]

/-- Claim C6: on a row whose "All day" cell is exactly "TRUE" (and whose
timezone, start parse, all-day parse and occurrence label succeed, witnessed
by the collaborator results), the transformed event's end instant is the
parsed start of the start date plus one day minus one second (86399 seconds,
i.e. 23:59:59 local in the row's resolved timezone), and changing the End
date / End time cells to anything does not change the transformation at
all. -/
theorem c6_allday_end_instant (env : Env) (guid : String) (s : Option String)
    (r : RowVals) (t1 t2 : Int) (q : String)
    (htz : env.tzdb (resolvedTz env r) = true)
    (hp1 : env.parseLoc (resolvedTz env r) (r.startDate ++ " " ++ r.startTime) = Except.ok t1)
    (had : r.allDay = "TRUE")
    (hp2 : env.parseLoc (resolvedTz env r) r.startDate = Except.ok t2)
    (hoc : occurStatusQcode r.occurStatus = some q) :
    (∀ item, buildItem env stdIdx guid s r.toList = Except.ok item →
      item.end_dt = t2 + 86399) ∧
    (∀ ed et, buildItem env stdIdx guid s
        ({ r with endDate := ed, endTime := et } : RowVals).toList =
      buildItem env stdIdx guid s r.toList) := by
  constructor
  · intro item hbi
    rw [buildItem, buildCore_allday env r t1 t2 q htz hp1 had hp2 hoc] at hbi
    simp only [Except.map] at hbi
    injection hbi with h
    subst h
    rfl
  · intro ed et
    rw [buildItem, buildItem,
      buildCore_allday env ({ r with endDate := ed, endTime := et } : RowVals)
        t1 t2 q htz hp1 had hp2 hoc,
      buildCore_allday env r t1 t2 q htz hp1 had hp2 hoc]
    rfl

/-- Witness for C6 at a concrete input: the all-day `sampleRow` ends
`10 + 86399` seconds into the parsed start date, whatever the End cells
say. -/
theorem c6_witness :
    item6.end_dt = 10 + 86399 ∧
    buildItem testEnv stdIdx "gen-3" (some "")
        ({ r6 with endDate := "X", endTime := "Y" } : RowVals).toList =
      buildItem testEnv stdIdx "gen-3" (some "") r6.toList := by
  have h := c6_allday_end_instant testEnv "gen-3" (some "") r6 16 10 "eocstat:eos0"
    rfl rfl rfl rfl rfl
  exact ⟨h.1 item6 rfl, h.2 "X" "Y"⟩

/-- Claim C7: the contact block of a transformed row is populated exactly
when Contact Email and Contact Phone Number are non-empty and either both
Contact First name and Contact Last name are non-empty or Contact
Organisation is; a populated block's phone entry is public exactly when
Contact Phone Public is "TRUE" and the usage is not "Confidential" — the
"Confidential" usage forces visibility off regardless of the flag. -/
theorem c7_contact_gating (env : Env) (guid : String) (s : Option String)
    (r : RowVals) (item : Item) (t1 : Int) (q : String)
    (htz : env.tzdb (resolvedTz env r) = true)
    (hp1 : env.parseLoc (resolvedTz env r) (r.startDate ++ " " ++ r.startTime) = Except.ok t1)
    (hoc : occurStatusQcode r.occurStatus = some q)
    (hend : (r.allDay = "TRUE" ∧
        ∃ t2, env.parseLoc (resolvedTz env r) r.startDate = Except.ok t2) ∨
      (r.allDay ≠ "TRUE" ∧ ∃ t2, env.parseLoc (resolvedTz env r)
          (r.endDate ++ " " ++ r.endTime) = Except.ok t2))
    (hbi : buildItem env stdIdx guid s r.toList = Except.ok item) :
    item.contact = contactOf r ∧
    (item.contact ≠ none ↔ (r.cEmail ≠ "" ∧ r.cPhone ≠ "" ∧
      ((r.cFirst ≠ "" ∧ r.cLast ≠ "") ∨ r.cOrg ≠ ""))) ∧
    (∀ c, item.contact = some c →
      c.contact_phone = [⟨r.cPhone,
        if r.cUsage = "Confidential" then false else r.cPublic == "TRUE", r.cUsage⟩] ∧
      ((if r.cUsage = "Confidential" then false else r.cPublic == "TRUE") = true ↔
        (r.cPublic = "TRUE" ∧ r.cUsage ≠ "Confidential"))) := by
  have hcon : item.contact = contactOf r := by
    rcases hend with ⟨had, t2, hp2⟩ | ⟨had, t2, hp2⟩
    · rw [buildItem, buildCore_allday env r t1 t2 q htz hp1 had hp2 hoc] at hbi
      simp only [Except.map] at hbi
      injection hbi with h
      subst h
      rfl
    · rw [buildItem, buildCore_not_allday env r t1 t2 q htz hp1 had hp2 hoc] at hbi
      simp only [Except.map] at hbi
      injection hbi with h
      subst h
      rfl
  refine ⟨hcon, ?_, ?_⟩
  · rw [hcon]
    exact contactOf_ne_none_iff r
  · intro c hc
    rw [hcon] at hc
    have hce := contactOf_eq_some r c hc
    subst hce
    refine ⟨rfl, ?_⟩
    by_cases hu : r.cUsage = "Confidential" <;> by_cases hp : r.cPublic = "TRUE" <;>
      simp [hu, hp]

/-- Witness for C7 at a concrete input: a row with email + phone +
organisation (no first/last name) gets a contact block, and its phone is
non-public despite Contact Phone Public = "TRUE" because the usage is
"Confidential". -/
theorem c7_witness :
    item7.contact = contactOf r7 ∧
    (item7.contact ≠ none ↔ (r7.cEmail ≠ "" ∧ r7.cPhone ≠ "" ∧
      ((r7.cFirst ≠ "" ∧ r7.cLast ≠ "") ∨ r7.cOrg ≠ ""))) ∧
    (∀ c, item7.contact = some c →
      c.contact_phone = [⟨r7.cPhone,
        if r7.cUsage = "Confidential" then false else r7.cPublic == "TRUE", r7.cUsage⟩] ∧
      ((if r7.cUsage = "Confidential" then false else r7.cPublic == "TRUE") = true ↔
        (r7.cPublic = "TRUE" ∧ r7.cUsage ≠ "Confidential"))) :=
  c7_contact_gating testEnv "gen-3" (some "") r7 item7 16 "eocstat:eos0" rfl rfl rfl
    (Or.inr ⟨by decide, 16, rfl⟩) rfl

/-- Claim C10: flag cells are matched case-sensitively against the exact
string "TRUE": with any other value in "All day" (such as "true" or "True")
the end instant is composed from the End date / End time cells, and a
populated contact's phone can only be public when "Contact Phone Public" is
exactly "TRUE"; the `_STATUS` cell, by contrast, is stripped and upper-cased
before it is compared. -/
theorem c10_exact_true_matching (env : Env) (guid : String) (s : Option String)
    (r : RowVals) (t1 t2 : Int) (q : String)
    (htz : env.tzdb (resolvedTz env r) = true)
    (hp1 : env.parseLoc (resolvedTz env r) (r.startDate ++ " " ++ r.startTime) = Except.ok t1)
    (hoc : occurStatusQcode r.occurStatus = some q) :
    (r.allDay ≠ "TRUE" →
      env.parseLoc (resolvedTz env r) (r.endDate ++ " " ++ r.endTime) = Except.ok t2 →
      ∀ item, buildItem env stdIdx guid s r.toList = Except.ok item →
        item.end_dt = t2) ∧
    (∀ c, contactOf r = some c → ∀ p ∈ c.contact_phone, p.pub = true →
      r.cPublic = "TRUE") ∧
    statusOf stdIdx r.toList = some (upperStr (trimStr r.statusCell)) := by
  refine ⟨?_, ?_, rfl⟩
  · intro had hp2 item hbi
    rw [buildItem, buildCore_not_allday env r t1 t2 q htz hp1 had hp2 hoc] at hbi
    simp only [Except.map] at hbi
    injection hbi with h
    subst h
    rfl
  · intro c hc p hp hpub
    have hce := contactOf_eq_some r c hc
    subst hce
    simp only [contactEntry, List.mem_singleton] at hp
    subst hp
    simp only [contactEntry] at hpub
    by_cases hu : r.cUsage = "Confidential"
    · rw [if_pos hu] at hpub
      exact absurd hpub (by simp)
    · rw [if_neg hu] at hpub
      simpa using hpub

/-- Witness for C10 at a concrete input: with "All day" = "true" (lower
case) the end instant comes from the End cells, and the `_STATUS` cell
" done " is normalized to "DONE". -/
theorem c10_witness :
    okItem.end_dt = 16 ∧
    statusOf stdIdx r10.toList = some (upperStr (trimStr r10.statusCell)) ∧
    upperStr (trimStr " done ") = "DONE" := by
  have h := c10_exact_true_matching testEnv "gen-3" (some "") r10 16 16 "eocstat:eos0"
    rfl rfl rfl
  exact ⟨h.1 (by decide) rfl okItem rfl, h.2.2, rfl⟩

theorem padTo_length (l : List String) (n : Nat) :
    (padTo l n).length = max l.length n := by
  simp [padTo]
  omega

theorem padTo_getElem_lt (l : List String) (n i : Nat) (h : i < l.length) :
    (padTo l n)[i]? = l[i]? :=
  List.getElem?_append_left h

theorem applyRow_err_status (v : List String) (r : Nat) (m : String)
    (hv : 29 ≤ v.length) :
    (applyRowCells v (errCells r stdIdx m))[29]? = some "ERROR" := by
  simp only [applyRowCells, errCells, stdIdx, List.foldl, applyCellToRow]
  rw [List.getElem?_set_ne (by omega), padTo_getElem_lt _ _ _ (by simp [padTo_length] <;> omega),
    List.getElem?_set_self (by simp [padTo_length] <;> omega)]

end Spreadsheet
